import Mathlib

/-!
Verification of the transportnsw-mcp departure-monitor and trip-planning
logic (src/api.py) against its specification.

The Python source is shallowly embedded: timestamps are parsed to absolute
instants measured in seconds (UTC epoch seconds, arbitrary integer epoch),
the process-local time zone is modelled as a fixed offset `tz` in seconds,
aware datetimes are represented by their local wall-clock second count
(instant + tz), dictionaries with optional keys become structures of
`Option` fields, and Python truthiness of strings/lists is the
nonempty/nonzero test.  Every function is total and executable.
-/

namespace TransportNSW

/-- Calendar date (proleptic Gregorian), as produced by the strftime
pattern for year-month-day.  Comparison of the zero-padded rendered
strings coincides with lexicographic comparison of the triples. -/
structure Date where
  year : Int
  month : Nat
  day : Nat
deriving DecidableEq, Repr

/-- Lexicographic order on dates; models the string comparison
of two dates both rendered by strftime as YYYY-MM-DD. -/
def dateLe (a b : Date) : Bool :=
  if a.year = b.year then
    if a.month = b.month then a.day ≤ b.day
    else a.month < b.month
  else a.year < b.year

/-- Gregorian leap-year test (as in Python's calendar/datetime). -/
def isLeap (y : Int) : Bool :=
  y % 4 = 0 && (y % 100 ≠ 0 || y % 400 = 0)

/-- Number of days in a month, as validated by Python's datetime constructor. -/
def daysInMonth (y : Int) (m : Nat) : Nat :=
  if m = 2 then (if isLeap y then 29 else 28)
  else if m = 4 || m = 6 || m = 9 || m = 11 then 30
  else 31

/-- Days since 1970-01-01 of a calendar date (standard civil-from-days
inverse; models Python's datetime.toordinal shifted to the Unix epoch). -/
def daysFromCivil (d : Date) : Int :=
  let y : Int := if d.month ≤ 2 then d.year - 1 else d.year
  let era : Int := y.fdiv 400
  let yoe : Nat := (y - era * 400).toNat
  let mp : Nat := if 2 < d.month then d.month - 3 else d.month + 9
  let doy : Nat := (153 * mp + 2) / 5 + d.day - 1
  let doe : Nat := yoe * 365 + yoe / 4 - yoe / 100 + doy
  era * 146097 + (doe : Int) - 719468

/-- Calendar date of a day count since 1970-01-01 (standard civil-from-days
algorithm; models Python's date.fromordinal shifted to the Unix epoch). -/
def civilFromDays (z0 : Int) : Date :=
  let z : Int := z0 + 719468
  let era : Int := z.fdiv 146097
  let doe : Nat := (z - era * 146097).toNat
  let yoe : Nat := (doe - doe / 1460 + doe / 36524 - doe / 146096) / 365
  let y : Int := (yoe : Int) + era * 400
  let doy : Nat := doe - (365 * yoe + yoe / 4 - yoe / 100)
  let mp : Nat := (5 * doy + 2) / 153
  let d : Nat := doy - (153 * mp + 2) / 5 + 1
  let m : Nat := if mp < 10 then mp + 3 else mp - 9
  { year := if m ≤ 2 then y + 1 else y, month := m, day := d }

/-- Wall-clock components of a parsed timestamp. -/
structure DateTimeParts where
  year : Nat
  month : Nat
  day : Nat
  hour : Nat
  minute : Nat
  second : Nat
deriving DecidableEq, Repr

/-- Numeric value of a decimal digit character, if it is one. -/
def digitVal (c : Char) : Option Nat :=
  if '0' ≤ c ∧ c ≤ '9' then some (c.toNat - '0'.toNat) else none

/-- Field matcher for the strptime numeric directives: the CPython
regular expressions for these directives try a two-digit alternative
first (validated by okTwo) and then a single-digit alternative
(validated by okOne).  Since in the format used here every numeric field
is followed by a non-digit literal or the end of the input, this
greedy two-then-one scheme is equivalent to full regex backtracking. -/
def parse2or1 (okTwo okOne : Nat → Bool) : List Char → Option (Nat × List Char)
  | c1 :: c2 :: rest =>
    match digitVal c1, digitVal c2 with
    | some d1, some d2 =>
      if okTwo (10 * d1 + d2) then some (10 * d1 + d2, rest)
      else if okOne d1 then some (d1, c2 :: rest)
      else none
    | some d1, none => if okOne d1 then some (d1, c2 :: rest) else none
    | none, _ => none
  | [c1] =>
    match digitVal c1 with
    | some d1 => if okOne d1 then some (d1, []) else none
    | none => none
  | [] => none

/-- Exactly four decimal digits (the strptime year directive). -/
def parse4 : List Char → Option (Nat × List Char)
  | c1 :: c2 :: c3 :: c4 :: rest =>
    match digitVal c1, digitVal c2, digitVal c3, digitVal c4 with
    | some a, some b, some c, some d => some (1000 * a + 100 * b + 10 * c + d, rest)
    | _, _, _, _ => none
  | _ => none

/-- One literal character. -/
def litChar (c : Char) : List Char → Option (List Char)
  | x :: rest => if x = c then some rest else none
  | [] => none

/-- Model of datetime.strptime with the fixed format string
year-month-day, a literal T, then hour:minute:second.  Follows the
CPython directive regular expressions (two-digit fields may also be
written with one digit; the whole input must be consumed) followed by
the datetime constructor validation: year at least 1, a real calendar
day, and second at most 59 (the 60 and 61 admitted by the regex are
rejected by the constructor, which the callers treat as a parse
failure). -/
def strptimeYmdHMS (cs : List Char) : Option DateTimeParts := do
  let (y, r1) ← parse4 cs
  let r2 ← litChar '-' r1
  let (mo, r3) ← parse2or1 (fun n => 1 ≤ n && n ≤ 12) (fun n => 1 ≤ n) r2
  let r4 ← litChar '-' r3
  let (d, r5) ← parse2or1 (fun n => 1 ≤ n && n ≤ 31) (fun n => 1 ≤ n) r4
  let r6 ← litChar 'T' r5
  let (h, r7) ← parse2or1 (fun n => n ≤ 23) (fun _ => true) r6
  let r8 ← litChar ':' r7
  let (mi, r9) ← parse2or1 (fun n => n ≤ 59) (fun _ => true) r8
  let r10 ← litChar ':' r9
  let (se, r11) ← parse2or1 (fun n => n ≤ 61) (fun _ => true) r10
  if r11 = [] ∧ 1 ≤ y ∧ d ≤ daysInMonth (y : Int) mo ∧ se ≤ 59 then
    pure { year := y, month := mo, day := d, hour := h, minute := mi, second := se }
  else none

/-- UTC epoch seconds of parsed wall-clock components interpreted in UTC
(models attaching tzinfo utc and taking the absolute instant). -/
def epochOfParts (p : DateTimeParts) : Int :=
  daysFromCivil { year := (p.year : Int), month := p.month, day := p.day } * 86400
    + (p.hour : Int) * 3600 + (p.minute : Int) * 60 + (p.second : Int)

/-- Characters before the first dot: models splitting a Python string on
the dot character and keeping the first piece. -/
def beforeDot (cs : List Char) : List Char :=
  cs.takeWhile (fun c => c ≠ '.')

/-- Remove one trailing Z character if present. -/
def stripZ (cs : List Char) : List Char :=
  if cs.getLast? = some 'Z' then cs.dropLast else cs

/-- Inline timestamp normalization of get_departure_monitor (api.py lines
262 to 269): drop any fractional-second suffix, drop a trailing Z, parse
the remainder with strptime, attach UTC.  Returns the UTC instant in
epoch seconds, or none when strptime raises (the caller skips the record). -/
def monitorParseTime (departure_time : String) : Option Int :=
  let clean_time := stripZ (beforeDot departure_time.toList)
  match strptimeYmdHMS clean_time with
  | some p => some (epochOfParts p)
  | none => none

/-- The shared helper parse_api_time (api.py lines 566 to 578): falsy
input (absent or empty) gives none, otherwise the same cleaning and
strptime as the inline copy, with a parse failure caught to none. -/
def parseApiTime (time_str : Option String) : Option Int :=
  match time_str with
  | none => none
  | some s =>
    if s = "" then none
    else
      let clean := stripZ (beforeDot s.toList)
      match strptimeYmdHMS clean with
      | some p => some (epochOfParts p)
      | none => none

/-- Zero-pad a natural number to two digits. -/
def pad2 (n : Nat) : String :=
  if n < 10 then "0" ++ toString n else toString n

/-- Zero-pad a year to four digits. -/
def pad4 (n : Int) : String :=
  let s := toString n
  String.mk (List.replicate (4 - s.length) '0') ++ s

/-- The strftime rendering year-month-day space hour:minute:second of a
local wall-clock second count. -/
def strftimeYmdHMS (localSec : Int) : String :=
  let day := localSec.fdiv 86400
  let secs := (localSec - day * 86400).toNat
  let d := civilFromDays day
  pad4 d.year ++ "-" ++ pad2 d.month ++ "-" ++ pad2 d.day ++ " "
    ++ pad2 (secs / 3600) ++ ":" ++ pad2 (secs % 3600 / 60) ++ ":" ++ pad2 (secs % 60)

/-- The strftime rendering year-month-day space hour:minute of a local
wall-clock second count. -/
def strftimeYmdHM (localSec : Int) : String :=
  let day := localSec.fdiv 86400
  let secs := (localSec - day * 86400).toNat
  let d := civilFromDays day
  pad4 d.year ++ "-" ++ pad2 d.month ++ "-" ++ pad2 d.day ++ " "
    ++ pad2 (secs / 3600) ++ ":" ++ pad2 (secs % 3600 / 60)

/-- The helper format_api_time (api.py lines 581 to 587): on parse
success, render the instant in the process-local zone (offset tz) as
year-month-day hour:minute; on failure return the raw string, or the
empty string for absent input. -/
def formatApiTime (tz : Int) (time_str : Option String) : String :=
  match parseApiTime time_str with
  | some parsed => strftimeYmdHM (parsed + tz)
  | none => time_str.getD ""

/-- A nested upstream object carrying a name key. -/
structure NameObj where
  name : Option String
deriving DecidableEq, Repr

/-- The transportation descriptor of a stop event. -/
structure TransportationInfo where
  number : Option String
  description : Option String
  destination : Option NameObj
  operator : Option NameObj
deriving DecidableEq, Repr

/-- The properties object of a stop event (key WheelchairAccess). -/
structure StopProperties where
  wheelchairAccess : Option String
deriving DecidableEq, Repr

/-- A raw upstream stop event (one departure record). -/
structure RawStopEvent where
  departureTimePlanned : Option String
  departureTimeEstimated : Option String
  location : Option NameObj
  transportation : Option TransportationInfo
  properties : Option StopProperties
deriving DecidableEq, Repr

/-- A stop event surviving normalization: the raw record together with
its derived local departure instant, stored as local wall-clock seconds
(UTC epoch seconds plus the fixed zone offset).  Models the record after
the loop stores the aware local datetime on it. -/
structure ProcessedStop where
  raw : RawStopEvent
  depLocalSec : Int
deriving DecidableEq, Repr

/-- Local calendar date of a local wall-clock second count. -/
def localDateOf (localSec : Int) : Date :=
  civilFromDays (localSec.fdiv 86400)

/-- Python list slicing up to an integer bound: nonnegative bounds keep a
prefix, negative bounds drop that many elements from the end. -/
def pySliceTo (l : List α) (k : Int) : List α :=
  if 0 ≤ k then l.take k.toNat else l.take (l.length - (-k).toNat)

/-- The early result limiting of get_departure_monitor (api.py lines 239
to 245): when the stopEvents key is present and holds more than
max_results events, the list is sliced to its first max_results entries
before any parsing or filtering; an absent key yields the empty list. -/
def preStops (max_results : Int) : Option (List RawStopEvent) → List RawStopEvent
  | none => []
  | some l => if (l.length : Int) > max_results then pySliceTo l max_results else l

/-- The normalization and date-filter loop of get_departure_monitor
(api.py lines 255 to 283): skip events with an empty or absent planned
departure time, skip events whose timestamp fails to parse, convert to
local time, and keep only events whose local calendar date is at least
today's local calendar date. -/
def processStops (tz : Int) (today : Date) : List RawStopEvent → List ProcessedStop
  | [] => []
  | stop :: rest =>
    let departure_time := stop.departureTimePlanned.getD ""
    if departure_time = "" then processStops tz today rest
    else
      match monitorParseTime departure_time with
      | none => processStops tz today rest
      | some utcSec =>
        if dateLe today (localDateOf (utcSec + tz)) then
          { raw := stop, depLocalSec := utcSec + tz } :: processStops tz today rest
        else processStops tz today rest

/-- The per-event action of the normalization loop, as a single optional
result (used to characterize processStops as a filterMap). -/
def keepStop (tz : Int) (today : Date) (stop : RawStopEvent) : Option ProcessedStop :=
  match monitorParseTime (stop.departureTimePlanned.getD "") with
  | none => none
  | some utcSec =>
    if dateLe today (localDateOf (utcSec + tz)) then
      some { raw := stop, depLocalSec := utcSec + tz }
    else none

/-- The target instant built by get_departure_monitor from the optional
time parameter (api.py lines 193 to 202): today's date at the given
hour:minute, local time, seconds zeroed, expressed in local wall-clock
seconds. -/
def targetTimeOf (today : Date) : Option (Nat × Nat) → Option Int
  | none => none
  | some (h, m) => some (daysFromCivil today * 86400 + (h : Int) * 3600 + (m : Int) * 60)

/-- The ranking scalar (api.py lines 285 to 299): with a target time, the
absolute difference in seconds between the local departure instant and
the target; otherwise the local departure instant itself. -/
def rankKey : Option Int → ProcessedStop → Int
  | some t, p => |p.depLocalSec - t|
  | none, p => p.depLocalSec

/-- Comparison by ranking scalar. -/
def rankLe (target : Option Int) (a b : ProcessedStop) : Prop :=
  rankKey target a ≤ rankKey target b

instance (target : Option Int) : DecidableRel (rankLe target) :=
  fun a b => Int.decLe (rankKey target a) (rankKey target b)

instance (target : Option Int) : IsTotal ProcessedStop (rankLe target) :=
  ⟨fun a b => Int.le_total (rankKey target a) (rankKey target b)⟩

instance (target : Option Int) : IsTrans ProcessedStop (rankLe target) :=
  ⟨fun _ _ _ hab hbc => le_trans hab hbc⟩

/-- The sorting step of get_departure_monitor (api.py lines 285 to 299):
a stable ascending sort by the ranking scalar.  Python's list sort is
stable, as is insertion sort with a total preorder, so the two agree on
every input. -/
def rankStops (target : Option Int) (l : List ProcessedStop) : List ProcessedStop :=
  List.insertionSort (rankLe target) l

/-- The late result limiting of get_departure_monitor (api.py lines 301
to 304): truncate to max_results entries only when max_results is
positive and the list is longer than that. -/
def postLimit (max_results : Int) (l : List ProcessedStop) : List ProcessedStop :=
  if 0 < max_results ∧ (l.length : Int) > max_results then l.take max_results.toNat else l

/-- The concise output record of the departure monitor. -/
structure ConciseStop where
  stop_name : String
  route_number : String
  route_name : String
  destination : String
  operator : String
  planned_departure : String
  estimated_departure : String
  local_departure_time : String
  wheelchair_access : String
deriving DecidableEq, Repr

/-- The concise record built for one ranked stop (api.py lines 310 to
323): nested lookups default to the empty string, the accessibility flag
defaults to the string false, and the local departure time is rendered
with seconds. -/
def conciseOfStop (stop : ProcessedStop) : ConciseStop :=
  { stop_name := (stop.raw.location.bind (fun l => l.name)).getD ""
  , route_number := (stop.raw.transportation.bind (fun t => t.number)).getD ""
  , route_name := (stop.raw.transportation.bind (fun t => t.description)).getD ""
  , destination := ((stop.raw.transportation.bind (fun t => t.destination)).bind (fun d => d.name)).getD ""
  , operator := ((stop.raw.transportation.bind (fun t => t.operator)).bind (fun o => o.name)).getD ""
  , planned_departure := stop.raw.departureTimePlanned.getD ""
  , estimated_departure := stop.raw.departureTimeEstimated.getD ""
  , local_departure_time := strftimeYmdHMS stop.depLocalSec
  , wheelchair_access := (stop.raw.properties.bind (fun p => p.wheelchairAccess)).getD "false" }

/-- The summarizing loop of get_departure_monitor (api.py lines 306 to
324), one concise record per ranked record in order. -/
def summarizeStops : List ProcessedStop → List ConciseStop
  | [] => []
  | stop :: rest => conciseOfStop stop :: summarizeStops rest

/-- The whole response processing of get_departure_monitor on a
successful response (api.py lines 236 to 326): early limiting, the
normalization and date-filter loop, the stable sort by ranking scalar,
the late limiting, and the concise summarization. -/
def departureMonitorProcess (tz : Int) (today : Date) (time : Option (Nat × Nat))
    (max_results : Int) (stopEvents : Option (List RawStopEvent)) : List ConciseStop :=
  let stops := preStops max_results stopEvents
  let processed_stops := processStops tz today stops
  let sorted_stops := rankStops (targetTimeOf today time) processed_stops
  let limited := postLimit max_results sorted_stops
  summarizeStops limited

/-- Outcome of the one HTTP GET a tool call performs: either a transport
exception or a response with a status code and a decoded body. -/
inductive HttpResult (α : Type) where
  | exn : HttpResult α
  | ok (status : Int) (body : α) : HttpResult α
deriving DecidableEq

/-- Decoded body of a departure-monitor response. -/
structure DMResponse where
  stopEvents : Option (List RawStopEvent)
deriving DecidableEq

/-- The tool-level result of get_departure_monitor (api.py lines 230 to
333): none on a transport exception or a non-200 status, otherwise the
processed concise list.  The function is total, so no exception escapes. -/
def getDepartureMonitorResult (tz : Int) (today : Date) (time : Option (Nat × Nat))
    (max_results : Int) : HttpResult DMResponse → Option (List ConciseStop)
  | .exn => none
  | .ok status body =>
    if status = 200 then some (departureMonitorProcess tz today time max_results body.stopEvents)
    else none

/-- Python truthiness of an optional string: present and nonempty. -/
def pyTruthy : Option String → Bool
  | some s => s ≠ ""
  | none => false

/-- Python round of the exact quotient n over d (d positive): round half
to even, as Python's builtin round does.  The code divides a duration or
second count by sixty. -/
def pyRoundDiv (n d : Int) : Int :=
  let q := n.fdiv d
  let r := n.fmod d
  if 2 * r < d then q
  else if d < 2 * r then q + 1
  else if q % 2 = 0 then q else q + 1

/-- Tag removal of the regular expression that deletes every maximal
piece starting with a less-than sign, followed by one or more characters
none of which is a greater-than sign, followed by a greater-than sign
(api.py line 532).  Scans left to right; the first state argument is
none outside a candidate tag and holds the reversed characters read
since the opening sign while inside one.  An opening sign immediately
followed by a closing sign matches nothing (the middle needs at least
one character), and an unclosed candidate at the end of input is emitted
literally, as the regular expression finds no further match there. -/
def stripTagsAux : Option (List Char) → List Char → List Char
  | none, [] => []
  | none, c :: rest =>
    if c = '<' then stripTagsAux (some []) rest else c :: stripTagsAux none rest
  | some buf, [] => '<' :: buf.reverse
  | some buf, c :: rest =>
    if c = '>' then
      if buf = [] then '<' :: '>' :: stripTagsAux none rest
      else stripTagsAux none rest
    else stripTagsAux (some (c :: buf)) rest

/-- Remove markup tags from a character list. -/
def stripTags (cs : List Char) : List Char :=
  stripTagsAux none cs

/-- Python str.strip with no argument: drop whitespace from both ends. -/
def pyStrip (cs : List Char) : List Char :=
  ((cs.dropWhile Char.isWhitespace).reverse.dropWhile Char.isWhitespace).reverse

/-- Subtitle cleaning for one alert entry (api.py line 532): a falsy
subtitle gives the empty string, otherwise markup tags are removed and
the result stripped of surrounding whitespace. -/
def cleanSubtitle (subtitle : String) : String :=
  if subtitle = "" then "" else String.mk (pyStrip (stripTags subtitle.toList))

/-- One rider-facing info entry on a leg. -/
structure InfoEntry where
  subtitle : Option String
deriving DecidableEq, Repr

/-- The alert-collecting loop over a leg's info entries (api.py lines 527
to 534): clean each subtitle and keep the nonempty results, in order. -/
def alertsOf : List InfoEntry → List String
  | [] => []
  | i :: rest =>
    let clean := cleanSubtitle (i.subtitle.getD "")
    if clean = "" then alertsOf rest else clean :: alertsOf rest

/-- One endpoint (origin or destination) of a journey leg. -/
structure StopPointInfo where
  name : Option String
  departureTimePlanned : Option String
  departureTimeEstimated : Option String
  arrivalTimePlanned : Option String
  arrivalTimeEstimated : Option String
deriving DecidableEq, Repr

/-- The product object of a leg's transportation descriptor; classCode
models the upstream key named class. -/
structure ProductInfo where
  name : Option String
  classCode : Option Int
deriving DecidableEq, Repr

/-- The transportation descriptor of a journey leg. -/
structure TripTransportation where
  product : Option ProductInfo
  number : Option String
  destination : Option NameObj
  operator : Option NameObj
deriving DecidableEq, Repr

/-- A raw journey leg.  The contents of the stop-sequence entries are
never inspected, only the length of the list. -/
structure RawLeg where
  origin : Option StopPointInfo
  destination : Option StopPointInfo
  transportation : Option TripTransportation
  duration : Option Int
  distance : Option Int
  isRealtimeControlled : Option Bool
  stopSequence : Option (List Unit)
  infos : Option (List InfoEntry)
deriving DecidableEq, Repr

/-- A raw journey: its list of legs. -/
structure RawJourney where
  legs : Option (List RawLeg)
deriving DecidableEq, Repr

/-- Lowercase one character (ASCII range; the mode names compared
against are ASCII). -/
def lowerChar (c : Char) : Char :=
  if 'A' ≤ c ∧ c ≤ 'Z' then Char.ofNat (c.toNat + 32) else c

/-- Python str.lower restricted to the ASCII range. -/
def pyLower (s : String) : String :=
  String.mk (s.toList.map lowerChar)

/-- The walking test of format_journeys (api.py line 483): the mode-class
code is present and at least 99, or the lowercased mode name is walking,
footpath, or empty. -/
def legIsWalking (leg : RawLeg) : Bool :=
  let product := leg.transportation.bind (fun t => t.product)
  let mode_name := (product.bind (fun p => p.name)).getD ""
  let product_class := product.bind (fun p => p.classCode)
  (match product_class with
    | some c => (99 : Int) ≤ c
    | none => false)
  || (pyLower mode_name == "walking" || pyLower mode_name == "footpath"
      || pyLower mode_name == "")

/-- The formatted output record for one leg.  Fields the code adds only
conditionally are optional and none models their absence from the dict. -/
structure FormattedLeg where
  origin : String
  departure_planned : String
  destination : String
  arrival_planned : String
  duration_minutes : Int
  departure_estimated : Option String
  arrival_estimated : Option String
  mode : String
  distance_metres : Option Int
  line : Option String
  towards : Option String
  operator : Option String
  realtime : Option Bool
  num_stops : Option Nat
  alerts : Option (List String)
deriving DecidableEq, Repr

/-- The per-leg formatting of format_journeys (api.py lines 474 to 538).
Each field's value is the expression the code assigns on the branch that
assigns it, and none on the branches that do not. -/
def formatLeg (tz : Int) (leg : RawLeg) : FormattedLeg :=
  let origin := leg.origin
  let dest := leg.destination
  let transport := leg.transportation
  let product := transport.bind (fun t => t.product)
  let mode_name := (product.bind (fun p => p.name)).getD ""
  let is_walking := legIsWalking leg
  let dep_est := origin.bind (fun o => o.departureTimeEstimated)
  let arr_est := dest.bind (fun d => d.arrivalTimeEstimated)
  let num := transport.bind (fun t => t.number)
  let tw := (transport.bind (fun t => t.destination)).bind (fun d => d.name)
  let op := (transport.bind (fun t => t.operator)).bind (fun o => o.name)
  let distance := leg.distance.getD 0
  let stop_seq := leg.stopSequence.getD []
  let infos := leg.infos.getD []
  let alerts := alertsOf infos
  { origin := (origin.bind (fun o => o.name)).getD ""
  , departure_planned := formatApiTime tz (origin.bind (fun o => o.departureTimePlanned))
  , destination := (dest.bind (fun d => d.name)).getD ""
  , arrival_planned := formatApiTime tz (dest.bind (fun d => d.arrivalTimePlanned))
  , duration_minutes := pyRoundDiv (leg.duration.getD 0) 60
  , departure_estimated := if pyTruthy dep_est then some (formatApiTime tz dep_est) else none
  , arrival_estimated := if pyTruthy arr_est then some (formatApiTime tz arr_est) else none
  , mode := if is_walking then "Walking" else mode_name
  , distance_metres := if is_walking then (if distance ≠ 0 then some distance else none) else none
  , line := if is_walking then none else (if pyTruthy num then num else none)
  , towards := if is_walking then none else (if pyTruthy tw then tw else none)
  , operator := if is_walking then none else (if pyTruthy op then op else none)
  , realtime := if is_walking then none
      else (if leg.isRealtimeControlled.getD false then some true else none)
  , num_stops := if is_walking then none
      else (if 2 < stop_seq.length then some (stop_seq.length - 1) else none)
  , alerts := if infos ≠ [] ∧ alerts ≠ [] then some (alerts.take 3) else none }

/-- A formatted journey: its legs, and the whole-journey duration fields
when both end timestamps parse. -/
structure FormattedJourney where
  legs : List FormattedLeg
  total_duration_minutes : Option Int
  depart : Option String
  arrive : Option String
deriving DecidableEq, Repr

/-- Formatting of one journey (api.py lines 468 to 561): none when the
leg list is empty or absent (the journey is skipped), otherwise the
formatted legs plus, when the first leg's planned departure and the last
leg's planned arrival are truthy and both parse, the rounded total
duration and the rendered end times. -/
def formatJourney (tz : Int) (journey : RawJourney) : Option FormattedJourney :=
  let legs := journey.legs.getD []
  match legs with
  | [] => none
  | _ =>
    let formatted_legs := legs.map (formatLeg tz)
    let first_dep := (legs.head?.bind (fun l => l.origin)).bind (fun o => o.departureTimePlanned)
    let last_arr := (legs.getLast?.bind (fun l => l.destination)).bind (fun d => d.arrivalTimePlanned)
    if pyTruthy first_dep && pyTruthy last_arr then
      match parseApiTime first_dep, parseApiTime last_arr with
      | some dep_dt, some arr_dt =>
        some { legs := formatted_legs
             , total_duration_minutes := some (pyRoundDiv (arr_dt - dep_dt) 60)
             , depart := some (formatApiTime tz first_dep)
             , arrive := some (formatApiTime tz last_arr) }
      | _, _ =>
        some { legs := formatted_legs, total_duration_minutes := none
             , depart := none, arrive := none }
    else
      some { legs := formatted_legs, total_duration_minutes := none
           , depart := none, arrive := none }

/-- The whole journey formatter (api.py lines 463 to 563): journeys with
an empty leg list are dropped, every other journey produces one record. -/
def formatJourneys (tz : Int) (journeys : List RawJourney) : List FormattedJourney :=
  journeys.filterMap (formatJourney tz)

/-- The error object of a trip response.  The code checks that the key is
present and its value truthy; a present object here models a truthy one. -/
structure TripError where
  message : Option String
deriving DecidableEq

/-- One system message: its optional text key and its generic string
rendering used as the fallback. -/
structure SysMessage where
  text : Option String
  fallback : String
deriving DecidableEq

/-- Decoded body of a trip-planner response. -/
structure TripResponse where
  error : Option TripError
  systemMessages : Option (List SysMessage)
  journeys : Option (List RawJourney)
deriving DecidableEq

/-- System-message extraction of plan_trip (api.py lines 435 to 441):
present and nonempty gives the per-message text with the generic
rendering as fallback. -/
def extractSystemMessages (r : TripResponse) : Option (List String) :=
  match r.systemMessages with
  | some msgs => if msgs ≠ [] then some (msgs.map (fun m => m.text.getD m.fallback)) else none
  | none => none

/-- The distinct shapes the plan_trip tool can return. -/
inductive PlanTripResult where
  | failure : PlanTripResult
  | errorDict (message : String) : PlanTripResult
  | sysMsgsOnly (msgs : List String) : PlanTripResult
  | noJourneysMsg (message : String) : PlanTripResult
  | journeysWithMsgs (msgs : List String) (js : List FormattedJourney) : PlanTripResult
  | journeysOnly (js : List FormattedJourney) : PlanTripResult
deriving DecidableEq

/-- Processing of a successful plan_trip response (api.py lines 426 to
454): a truthy error key yields an error mapping; with no journeys the
result is the system messages if any, else a fixed message mapping;
otherwise the formatted journeys, wrapped together with the system
messages when present. -/
def planTripFromResponse (tz : Int) (r : TripResponse) : PlanTripResult :=
  match r.error with
  | some e => .errorDict (e.message.getD "Unknown API error")
  | none =>
    let journeys := r.journeys.getD []
    let system_messages := extractSystemMessages r
    if journeys = [] then
      match system_messages with
      | some msgs => .sysMsgsOnly msgs
      | none => .noJourneysMsg "No journeys found for the given criteria."
    else
      let result := formatJourneys tz journeys
      match system_messages with
      | some msgs => .journeysWithMsgs msgs result
      | none => .journeysOnly result

/-- The tool-level result of plan_trip (api.py lines 422 to 460): failure
(the null return) on a transport exception or a non-200 status,
otherwise the processed response.  The function is total, so no
exception escapes. -/
def planTrip (tz : Int) : HttpResult TripResponse → PlanTripResult
  | .exn => .failure
  | .ok status body => if status = 200 then planTripFromResponse tz body else .failure

/-- A sample local date used in concrete checks. -/
def day0 : Date :=
  { year := 2024, month := 1, day := 1 }

/-- A sample stop event with a parseable, future-dated planned departure. -/
def sampleEvent : RawStopEvent :=
  { departureTimePlanned := some "2024-01-02T03:04:05Z"
  , departureTimeEstimated := none
  , location := none
  , transportation := none
  , properties := none }

/-- A sample stop event whose planned departure does not parse. -/
def badEvent : RawStopEvent :=
  { departureTimePlanned := some "not-a-timestamp"
  , departureTimeEstimated := none
  , location := none
  , transportation := none
  , properties := none }

/-- A sample walking leg (mode class 99, mode name Walking). -/
def walkLeg : RawLeg :=
  { origin := none
  , destination := none
  , transportation := some
      { product := some { name := some "Walking", classCode := some 99 }
      , number := none, destination := none, operator := none }
  , duration := some 300
  , distance := some 400
  , isRealtimeControlled := none
  , stopSequence := none
  , infos := none }

/-- A sample transit leg (mode class 1, mode name Train). -/
def trainLeg : RawLeg :=
  { origin := none
  , destination := none
  , transportation := some
      { product := some { name := some "Train", classCode := some 1 }
      , number := some "T1"
      , destination := some { name := some "Berowra" }
      , operator := some { name := some "Sydney Trains" } }
  , duration := some 1800
  , distance := none
  , isRealtimeControlled := some true
  , stopSequence := some [(), (), (), (), ()]
  , infos := none }

/-- A successful trip response carrying zero journeys and no messages. -/
def emptyTripResponse : TripResponse :=
  { error := none, systemMessages := none, journeys := some [] }

/-! ## Helper lemmas -/

theorem monitorParseTime_empty : monitorParseTime "" = none := rfl

/-- The normalization loop is the filterMap of its per-event action. -/
theorem processStops_eq_filterMap (tz : Int) (today : Date) (l : List RawStopEvent) :
    processStops tz today l = l.filterMap (keepStop tz today) := by
  induction l with
  | nil => rfl
  | cons stop rest ih =>
    simp only [processStops, List.filterMap_cons]
    by_cases h : stop.departureTimePlanned.getD "" = ""
    · have hk : keepStop tz today stop = none := by
        simp only [keepStop, h, monitorParseTime_empty]
      rw [if_pos h, hk, ih]
    · rw [if_neg h]
      have hk : keepStop tz today stop
          = match monitorParseTime (stop.departureTimePlanned.getD "") with
            | none => none
            | some utcSec =>
              if dateLe today (localDateOf (utcSec + tz)) then
                some { raw := stop, depLocalSec := utcSec + tz }
              else none := rfl
      cases hm : monitorParseTime (stop.departureTimePlanned.getD "") with
      | none => rw [hk, hm]; exact ih
      | some utcSec =>
        rw [hk, hm]
        dsimp only
        by_cases hd : dateLe today (localDateOf (utcSec + tz))
        · rw [if_pos hd, if_pos hd]
          dsimp only
          rw [ih]
        · rw [if_neg hd, if_neg hd]
          exact ih

/-- Filtering by a key value commutes with ordered insertion: the
inserted element lands in front of the equal-key elements, and the
skipped prefix has strictly smaller keys. -/
theorem filter_orderedInsert (target : Option Int) (k : Int) (a : ProcessedStop)
    (l : List ProcessedStop) :
    List.filter (fun p => rankKey target p == k) (List.orderedInsert (rankLe target) a l)
      = if rankKey target a == k
        then a :: List.filter (fun p => rankKey target p == k) l
        else List.filter (fun p => rankKey target p == k) l := by
  induction l with
  | nil =>
    by_cases hak : (rankKey target a == k) = true
    · simp [List.orderedInsert, List.filter_cons, hak]
    · simp [List.orderedInsert, List.filter_cons, hak]
  | cons b m ih =>
    simp only [List.orderedInsert]
    by_cases hab : rankLe target a b
    · rw [if_pos hab]
      by_cases hak : (rankKey target a == k) = true
      · simp [List.filter_cons, hak]
      · simp [List.filter_cons, hak]
    · rw [if_neg hab]
      by_cases hbk : (rankKey target b == k) = true
      · have hba : rankKey target b < rankKey target a := by
          unfold rankLe at hab
          omega
        have hbk' : rankKey target b = k := beq_iff_eq.mp hbk
        have hak : ¬(rankKey target a == k) = true := by
          simp only [beq_iff_eq]
          omega
        simp [List.filter_cons, hbk, hak, ih]
      · simp [List.filter_cons, hbk, ih]

/-- Stability of the ranking sort: filtering the sorted list by any key
value returns the same subsequence, in the same order, as filtering the
input, which is the standard statement that ties are broken by input
order. -/
theorem filter_rankStops (target : Option Int) (k : Int) (l : List ProcessedStop) :
    List.filter (fun p => rankKey target p == k) (rankStops target l)
      = List.filter (fun p => rankKey target p == k) l := by
  induction l with
  | nil => rfl
  | cons a m ih =>
    show List.filter _ (List.orderedInsert (rankLe target) a (List.insertionSort (rankLe target) m)) = _
    rw [filter_orderedInsert, List.filter_cons]
    by_cases hak : (rankKey target a == k) = true
    · rw [if_pos hak, if_pos hak]
      rw [show List.insertionSort (rankLe target) m = rankStops target m from rfl, ih]
    · rw [if_neg hak, if_neg hak]
      rw [show List.insertionSort (rankLe target) m = rankStops target m from rfl, ih]

theorem length_summarizeStops (l : List ProcessedStop) :
    (summarizeStops l).length = l.length := by
  induction l with
  | nil => rfl
  | cons a m ih => simp [summarizeStops, ih]

theorem summarizeStops_eq_map (l : List ProcessedStop) :
    summarizeStops l = l.map conciseOfStop := by
  induction l with
  | nil => rfl
  | cons a m ih => simp [summarizeStops, ih]

theorem length_rankStops (target : Option Int) (l : List ProcessedStop) :
    (rankStops target l).length = l.length :=
  List.length_insertionSort (rankLe target) l

theorem length_postLimit_le (max_results : Int) (l : List ProcessedStop)
    (h : 0 < max_results) :
    ((postLimit max_results l).length : Int) ≤ max_results := by
  unfold postLimit
  split
  · rename_i hc
    have := List.length_take max_results.toNat l
    omega
  · rename_i hc
    push_neg at hc
    exact hc h

theorem postLimit_of_nonpos (max_results : Int) (l : List ProcessedStop)
    (h : max_results ≤ 0) :
    postLimit max_results l = l := by
  unfold postLimit
  rw [if_neg]
  rintro ⟨h1, _⟩
  omega

/-- The alert-collecting loop equals mapping the subtitle cleaning over
the entries and keeping the nonempty results. -/
theorem alertsOf_eq (infos : List InfoEntry) :
    alertsOf infos
      = (infos.map (fun i => cleanSubtitle (i.subtitle.getD ""))).filter (fun s => s != "") := by
  induction infos with
  | nil => rfl
  | cons i rest ih =>
    simp only [alertsOf, List.map_cons, List.filter_cons]
    by_cases h : cleanSubtitle (i.subtitle.getD "") = ""
    · simp [h, ih]
    · simp [h, ih]

/-- Processing a successful departure-monitor response with no stop
events yields the empty list, for every parameter combination. -/
theorem departureMonitorProcess_no_events (tz : Int) (today : Date)
    (time : Option (Nat × Nat)) (max_results : Int)
    (se : Option (List RawStopEvent)) (h : se = some [] ∨ se = none) :
    departureMonitorProcess tz today time max_results se = [] := by
  have hpre : preStops max_results se = [] := by
    rcases h with h | h <;> subst h
    · simp [preStops, pySliceTo]
    · rfl
  unfold departureMonitorProcess
  rw [hpre]
  show summarizeStops (postLimit max_results (rankStops (targetTimeOf today time) [])) = []
  rw [show rankStops (targetTimeOf today time) [] = [] from rfl]
  rw [show postLimit max_results [] = [] by unfold postLimit; simp]
  rfl

/-! ## Claim theorems -/

/-- C10: the inline timestamp parsing of the departure monitor (strip
after the first dot, strip a trailing Z, parse the fixed pattern, attach
UTC) succeeds on exactly the same inputs as the shared helper
parse_api_time, and both produce the same UTC instant; absent input
fails in both.  The two copies are equivalent implementations of the
time normalizer. -/
theorem c10_parse_copies_agree :
    (∀ s : String, monitorParseTime s = parseApiTime (some s))
    ∧ parseApiTime none = none := by
  refine ⟨fun s => ?_, rfl⟩
  by_cases h : s = ""
  · subst h; rfl
  · simp only [parseApiTime, if_neg h, monitorParseTime]

/-- C5: the normalization loop of the departure monitor is exactly the
filterMap of its per-event action, so an event that parses is kept if
and only if its local calendar date is at least today's local calendar
date (a date-granularity comparison, not an instant comparison), and
every record in the output is dated today or later. -/
theorem c5_date_filter (tz : Int) (today : Date) (events : List RawStopEvent) :
    processStops tz today events = events.filterMap (keepStop tz today)
    ∧ (processStops tz today events).all
        (fun p => dateLe today (localDateOf p.depLocalSec)) = true := by
  refine ⟨processStops_eq_filterMap tz today events, ?_⟩
  rw [processStops_eq_filterMap, List.all_eq_true]
  intro p hp
  rcases List.mem_filterMap.mp hp with ⟨e, _, hk⟩
  have hk' : (match monitorParseTime (e.departureTimePlanned.getD "") with
      | none => none
      | some utcSec =>
        if dateLe today (localDateOf (utcSec + tz)) then
          some { raw := e, depLocalSec := utcSec + tz }
        else none) = some p := hk
  cases hm : monitorParseTime (e.departureTimePlanned.getD "") with
  | none => rw [hm] at hk'; cases hk'
  | some utcSec =>
    rw [hm] at hk'
    dsimp only at hk'
    by_cases hd : dateLe today (localDateOf (utcSec + tz))
    · rw [if_pos hd] at hk'
      cases hk'
      exact hd
    · rw [if_neg hd] at hk'
      cases hk'

/-- C4: the departure monitor never emits a record whose planned
departure timestamp is absent, empty, or unparseable: every output
record of the normalization loop has a successfully parsed planned
departure, and prepending an event whose timestamp fails to parse
leaves the loop's output unchanged.  The embedding is total, so no
error is raised on such events. -/
theorem c4_unparseable_excluded (tz : Int) (today : Date) (events : List RawStopEvent) :
    ((processStops tz today events).all
        (fun p => (monitorParseTime (p.raw.departureTimePlanned.getD "")).isSome)) = true
    ∧ ∀ (e : RawStopEvent) (rest : List RawStopEvent),
        monitorParseTime (e.departureTimePlanned.getD "") = none →
        processStops tz today (e :: rest) = processStops tz today rest := by
  constructor
  · rw [processStops_eq_filterMap, List.all_eq_true]
    intro p hp
    rcases List.mem_filterMap.mp hp with ⟨e, _, hk⟩
    have hk' : (match monitorParseTime (e.departureTimePlanned.getD "") with
        | none => none
        | some utcSec =>
          if dateLe today (localDateOf (utcSec + tz)) then
            some { raw := e, depLocalSec := utcSec + tz }
          else none) = some p := hk
    cases hm : monitorParseTime (e.departureTimePlanned.getD "") with
    | none => rw [hm] at hk'; cases hk'
    | some utcSec =>
      rw [hm] at hk'
      dsimp only at hk'
      by_cases hd : dateLe today (localDateOf (utcSec + tz))
      · rw [if_pos hd] at hk'
        cases hk'
        simp [hm]
      · rw [if_neg hd] at hk'
        cases hk'
  · intro e rest hfail
    simp only [processStops]
    by_cases he : e.departureTimePlanned.getD "" = ""
    · rw [if_pos he]
    · rw [if_neg he, hfail]

theorem c4_unparseable_excluded_witness :
    processStops 0 day0 ([badEvent, sampleEvent]) = processStops 0 day0 [sampleEvent] :=
  (c4_unparseable_excluded 0 day0 []).2 badEvent [sampleEvent] (by decide)

/-- C3: the ranking scalar is the absolute difference in seconds from
the target instant when a target time is supplied (the target being
today's date at the given hour and minute, local time) and the local
departure instant itself otherwise; the sort output is ascending in the
scalar on every adjacent pair, and ties are broken by input order
(filtering by any scalar value preserves the input subsequence). -/
theorem c3_ranking_scalar_and_sort (target : Option Int) (l : List ProcessedStop) :
    List.Chain' (fun a b => rankKey target a ≤ rankKey target b) (rankStops target l)
    ∧ (∀ k : Int, List.filter (fun p => rankKey target p == k) (rankStops target l)
        = List.filter (fun p => rankKey target p == k) l)
    ∧ (∀ (t : Int) (p : ProcessedStop), rankKey (some t) p = |p.depLocalSec - t|)
    ∧ (∀ p : ProcessedStop, rankKey none p = p.depLocalSec)
    ∧ (∀ (today : Date) (h m : Nat),
        targetTimeOf today (some (h, m))
          = some (daysFromCivil today * 86400 + (h : Int) * 3600 + (m : Int) * 60)) := by
  refine ⟨?_, fun k => filter_rankStops target k l,
    fun _ _ => rfl, fun _ => rfl, fun _ _ _ => rfl⟩
  exact (List.sorted_insertionSort (rankLe target) l).chain'

/-- C1 counterexample: with a result limit of zero and a single event
that survives both the parse and the date filter, the claim predicts an
untruncated output of length one, but the code's early limiting (applied
before parsing, whenever the event list is longer than the limit, with
no positivity guard) empties the candidate list and the output has
length zero. -/
theorem c1_counterexample :
    (departureMonitorProcess 0 day0 none 0 (some [sampleEvent])).length = 0
    ∧ (processStops 0 day0 [sampleEvent]).length = 1 := by
  constructor
  · decide
  · decide

/-- C1 amended: the output is never longer than the limit when the limit
is positive, and when the limit is nonpositive no truncation happens
after sorting; however the raw event list is already sliced to its first
max_results entries (Python slice semantics, so empty for a limit of
zero and dropping the last entries for a negative limit) before parsing
whenever it is longer than the limit, so for a nonpositive limit the
output length equals the number of survivors of that pre-truncated list,
not of the full list. -/
theorem c1_truncation_amended (tz : Int) (today : Date) (time : Option (Nat × Nat))
    (max_results : Int) (stopEvents : Option (List RawStopEvent)) :
    (0 < max_results →
      ((departureMonitorProcess tz today time max_results stopEvents).length : Int)
        ≤ max_results)
    ∧ (max_results ≤ 0 →
      (departureMonitorProcess tz today time max_results stopEvents).length
        = (processStops tz today (preStops max_results stopEvents)).length
      ∧ postLimit max_results (rankStops (targetTimeOf today time)
            (processStops tz today (preStops max_results stopEvents)))
          = rankStops (targetTimeOf today time)
              (processStops tz today (preStops max_results stopEvents))) := by
  constructor
  · intro hpos
    unfold departureMonitorProcess
    rw [length_summarizeStops]
    exact length_postLimit_le max_results _ hpos
  · intro hnp
    have hid := postLimit_of_nonpos max_results
      (rankStops (targetTimeOf today time) (processStops tz today (preStops max_results stopEvents))) hnp
    refine ⟨?_, hid⟩
    unfold departureMonitorProcess
    rw [length_summarizeStops, hid, length_rankStops]

theorem c1_truncation_amended_witness :
    ((departureMonitorProcess 0 day0 none 2 (some [sampleEvent])).length : Int) ≤ 2
    ∧ (departureMonitorProcess 0 day0 none 0 (some [sampleEvent])).length
        = (processStops 0 day0 (preStops 0 (some [sampleEvent]))).length :=
  ⟨(c1_truncation_amended 0 day0 none 2 (some [sampleEvent])).1 (by decide),
   ((c1_truncation_amended 0 day0 none 0 (some [sampleEvent])).2 (by decide)).1⟩

/-- C2 counterexample: a successful (status 200) trip-planner response
with zero journeys and no system messages returns a mapping carrying a
message, which is neither the null failure result nor an empty sequence,
so the null-versus-empty-sequence convention does not hold for every
tool. -/
theorem c2_counterexample :
    planTrip 0 (.ok 200 emptyTripResponse)
        = .noJourneysMsg "No journeys found for the given criteria."
    ∧ planTrip 0 (.ok 200 emptyTripResponse) ≠ .journeysOnly []
    ∧ planTrip 0 (.ok 200 emptyTripResponse) ≠ .failure := by
  refine ⟨rfl, ?_, ?_⟩
  · decide
  · decide

/-- C2 amended: a transport exception or a non-200 status yields the
null result and never a raised exception (the embedding is total) for
both modelled tools; a successful departure-monitor response with no
stop events yields the empty list, so null versus empty distinguishes
failure from no results for that tool; but a successful trip-planner
response with no journeys yields a message mapping, not an empty
sequence. -/
theorem c2_failure_convention_amended (tzm tzp : Int) (today : Date)
    (time : Option (Nat × Nat)) (max_results : Int) :
    (getDepartureMonitorResult tzm today time max_results .exn = none)
    ∧ (∀ (status : Int) (body : DMResponse), status ≠ 200 →
        getDepartureMonitorResult tzm today time max_results (.ok status body) = none)
    ∧ (∀ body : DMResponse, body.stopEvents = some [] ∨ body.stopEvents = none →
        getDepartureMonitorResult tzm today time max_results (.ok 200 body) = some [])
    ∧ (planTrip tzp .exn = .failure)
    ∧ (∀ (status : Int) (body : TripResponse), status ≠ 200 →
        planTrip tzp (.ok status body) = .failure)
    ∧ (∀ body : TripResponse, body.error = none → body.systemMessages = none →
        body.journeys = some [] →
        planTrip tzp (.ok 200 body)
          = .noJourneysMsg "No journeys found for the given criteria.") := by
  refine ⟨rfl, ?_, ?_, rfl, ?_, ?_⟩
  · intro status body h
    simp [getDepartureMonitorResult, h]
  · intro body h
    simp only [getDepartureMonitorResult, if_pos rfl]
    rw [departureMonitorProcess_no_events tzm today time max_results body.stopEvents h]
    simp
  · intro status body h
    simp [planTrip, h]
  · intro body h1 h2 h3
    simp [planTrip, planTripFromResponse, h1, h2, h3, extractSystemMessages]

theorem c2_failure_convention_amended_witness :
    getDepartureMonitorResult 0 day0 none 1 (.ok 500 { stopEvents := none }) = none
    ∧ getDepartureMonitorResult 0 day0 none 1 (.ok 200 { stopEvents := some [] }) = some []
    ∧ planTrip 0 (.ok 404 emptyTripResponse) = .failure
    ∧ planTrip 0 (.ok 200 emptyTripResponse)
        = .noJourneysMsg "No journeys found for the given criteria." :=
  ⟨(c2_failure_convention_amended 0 0 day0 none 1).2.1 500 { stopEvents := none } (by decide),
   (c2_failure_convention_amended 0 0 day0 none 1).2.2.1 { stopEvents := some [] } (Or.inl rfl),
   (c2_failure_convention_amended 0 0 day0 none 1).2.2.2.2.1 404 emptyTripResponse (by decide),
   (c2_failure_convention_amended 0 0 day0 none 1).2.2.2.2.2 emptyTripResponse rfl rfl rfl⟩

/-- A leg that fails the walking test cannot have the literal mode name
Walking, since that name lowercases to one of the walking names. -/
theorem legIsWalking_false_name_ne (leg : RawLeg) (h : legIsWalking leg = false) :
    ((leg.transportation.bind (fun t => t.product)).bind (fun p => p.name)).getD ""
      ≠ "Walking" := by
  intro he
  simp only [legIsWalking] at h
  rw [he] at h
  rw [show (pyLower "Walking" == "walking") = true from by decide] at h
  simp at h

/-- C6: a leg is classified Walking exactly when its mode-class code is
present and at least 99 or its lowercased mode name is walking,
footpath, or empty; every other leg carries its upstream mode name
verbatim, and the line, towards, operator, realtime and stop-count
fields are only ever attached to such transit legs. -/
theorem c6_mode_classification (tz : Int) (leg : RawLeg) :
    ((formatLeg tz leg).mode = "Walking" ↔ legIsWalking leg = true)
    ∧ (legIsWalking leg = true →
        (formatLeg tz leg).line = none ∧ (formatLeg tz leg).towards = none
        ∧ (formatLeg tz leg).operator = none ∧ (formatLeg tz leg).realtime = none
        ∧ (formatLeg tz leg).num_stops = none)
    ∧ (legIsWalking leg = false →
        (formatLeg tz leg).mode
          = ((leg.transportation.bind (fun t => t.product)).bind (fun p => p.name)).getD ""
        ∧ (formatLeg tz leg).distance_metres = none
        ∧ (formatLeg tz leg).line
            = (if pyTruthy (leg.transportation.bind (fun t => t.number))
               then leg.transportation.bind (fun t => t.number) else none)) := by
  cases hw : legIsWalking leg with
  | false =>
    have hmn := legIsWalking_false_name_ne leg hw
    refine ⟨?_, fun hcontra => by simp [hw] at hcontra, fun _ => by simp [formatLeg, hw]⟩
    simp [formatLeg, hw, hmn]
  | true =>
    refine ⟨by simp [formatLeg, hw], fun _ => by simp [formatLeg, hw],
      fun hcontra => by simp [hw] at hcontra⟩

theorem c6_mode_classification_witness :
    (formatLeg 0 walkLeg).mode = "Walking"
    ∧ (formatLeg 0 walkLeg).line = none
    ∧ (formatLeg 0 trainLeg).mode = "Train"
    ∧ (formatLeg 0 trainLeg).distance_metres = none :=
  ⟨((c6_mode_classification 0 walkLeg).1).mpr (by decide),
   ((c6_mode_classification 0 walkLeg).2.1 (by decide)).1,
   ((c6_mode_classification 0 trainLeg).2.2 (by decide)).1,
   ((c6_mode_classification 0 trainLeg).2.2 (by decide)).2.1⟩

/-- C7: the alerts attached to a leg are the cleaned subtitles of its
info entries, in order, with entries that clean to the empty string
discarded and at most the first three survivors kept; and the markup
stripping turns the sample subtitle into the expected plain text. -/
theorem c7_alert_extraction (tz : Int) (leg : RawLeg) :
    (formatLeg tz leg).alerts.getD []
      = (((leg.infos.getD []).map (fun i => cleanSubtitle (i.subtitle.getD ""))).filter
          (fun s => s != "")).take 3
    ∧ ((formatLeg tz leg).alerts.getD []).length ≤ 3
    ∧ cleanSubtitle "<p>Delays <b>expected</b></p>" = "Delays expected" := by
  have hmain : (formatLeg tz leg).alerts.getD []
      = (((leg.infos.getD []).map (fun i => cleanSubtitle (i.subtitle.getD ""))).filter
          (fun s => s != "")).take 3 := by
    show (if leg.infos.getD [] ≠ [] ∧ alertsOf (leg.infos.getD []) ≠ []
        then some ((alertsOf (leg.infos.getD [])).take 3) else none).getD [] = _
    rw [← alertsOf_eq]
    by_cases h : leg.infos.getD [] ≠ [] ∧ alertsOf (leg.infos.getD []) ≠ []
    · rw [if_pos h]
      rfl
    · rw [if_neg h]
      rcases Decidable.not_and_iff_or_not.mp h with h1 | h2
      · rw [not_not] at h1
        rw [h1]
        rfl
      · rw [not_not] at h2
        rw [h2]
        rfl
  refine ⟨hmain, ?_, rfl⟩
  rw [hmain]
  have := List.length_take 3
    (((leg.infos.getD []).map (fun i => cleanSubtitle (i.subtitle.getD ""))).filter
      (fun s => s != ""))
  omega

/-- C8: the departure summarizer is the order-preserving map of the
per-record conversion (hence total and never failing), and every missing
nested field defaults to the empty string, except the wheelchair-access
property which defaults to the string false. -/
theorem c8_summarizer_defaults (l : List ProcessedStop) (s : ProcessedStop) :
    summarizeStops l = l.map conciseOfStop
    ∧ (conciseOfStop { s with raw := { s.raw with properties := none } }).wheelchair_access
        = "false"
    ∧ (conciseOfStop { s with raw := { s.raw with location := none } }).stop_name = ""
    ∧ (conciseOfStop { s with raw := { s.raw with transportation := none } }).route_number = ""
    ∧ (conciseOfStop { s with raw := { s.raw with transportation := none } }).route_name = ""
    ∧ (conciseOfStop { s with raw := { s.raw with transportation := none } }).destination = ""
    ∧ (conciseOfStop { s with raw := { s.raw with transportation := none } }).operator = ""
    ∧ (conciseOfStop { s with raw := { s.raw with departureTimePlanned := none } }).planned_departure
        = ""
    ∧ (conciseOfStop { s with raw := { s.raw with departureTimeEstimated := none } }).estimated_departure
        = "" :=
  ⟨summarizeStops_eq_map l, rfl, rfl, rfl, rfl, rfl, rfl, rfl, rfl⟩

/-- C9: when parsing fails (including absent input) the local-time
formatter returns the raw string unchanged, or the empty string for
absent input, and never propagates the failure; on success it renders
the instant in the local zone with the minute-granularity pattern. -/
theorem c9_format_fallback (tz : Int) (time_str : Option String) :
    (parseApiTime time_str = none → formatApiTime tz time_str = time_str.getD "")
    ∧ (∀ parsed : Int, parseApiTime time_str = some parsed →
        formatApiTime tz time_str = strftimeYmdHM (parsed + tz)) := by
  constructor
  · intro h
    unfold formatApiTime
    rw [h]
  · intro parsed h
    unfold formatApiTime
    rw [h]

theorem c9_format_fallback_witness :
    formatApiTime 0 (some "garbage") = "garbage"
    ∧ formatApiTime 0 none = ""
    ∧ formatApiTime 36000 (some "2024-01-02T03:04:05Z") = "2024-01-02 13:04" := by
  refine ⟨(c9_format_fallback 0 (some "garbage")).1 (by decide),
    (c9_format_fallback 0 none).1 (by decide), ?_⟩
  have h := (c9_format_fallback 36000 (some "2024-01-02T03:04:05Z")).2 1704164645 (by decide)
  rw [h]
  decide

end TransportNSW
